import Mathlib

/-!
Verification development for the `linkus_community_bot` Discord moderation bot.

The Python source is shallowly embedded: the backend HTTP API and the chat
platform are modelled as explicit inputs (oracle responses, lookup functions),
coroutine side effects become explicit traces of `Action`/`Effect` values, and
each cog method becomes a pure Lean function over those inputs.  Dictionaries
become association lists over `Nat` snowflakes; `datetime.now()` becomes an
abstract integer timestamp; `pytimeparse.timeparse` becomes an oracle
`String → Option Int`.
-/

namespace Linkus

/-- A discipline event row as returned by the backend
(`discipline_event_*` endpoints); only the fields the cog reads are kept. -/
structure DisciplineEvent where
  id : Nat
  isPardoned : Bool
  isTerminated : Bool
  userSnowflake : Nat
deriving DecidableEq, Repr

/-- Messages the discipline cog sends to the invoking moderator's channel,
abstracted to constructors carrying the data interpolated into the text. -/
inductive DMsg where
  | invalidDuration (d : String)
  | appliedPermanent (eventId : Nat)
  | appliedUntil (eventId : Nat)
  | notApplied (err : String)
  | noRecord (reason : Option String)
  | remainsInEffect (err : String)
  | pardonedOk
  | unableToKick
  | unableToAddRole
  | alreadyHasRole
deriving DecidableEq, Repr

/-- The observable side effects of `_apply_discipline` / `_pardon_discipline`,
in execution order: backend writes, platform enforcement calls, channel sends. -/
inductive Action where
  | commitEvent (endTime : Option Int) (immediatelyTerminated : Bool)
  | platformDiscipline
  | cancelPlatform
  | raisedExn (exn : String)
  | setPardoned (eventId : Nat)
  | platformReversal
  | sendMsg (m : DMsg)
deriving DecidableEq, Repr

/-- Trace of `_apply_discipline` after duration parsing succeeded: the
`_commit_user_discipline` call, then on success the awaited platform coroutine
and the feedback message, or on failure the failure message followed by
creating and cancelling the task for the platform coroutine
(`asyncio.create_task(None)` would raise `TypeError`). -/
def afterParse (res : Except String DisciplineEvent) (hasCor : Bool)
    (endTime : Option Int) (immTerm : Bool) (permanentFmt : Bool) : List Action :=
  Action.commitEvent endTime immTerm ::
    match res with
    | .ok ev =>
      (if hasCor then [Action.platformDiscipline] else []) ++
        [Action.sendMsg (if permanentFmt then .appliedPermanent ev.id else .appliedUntil ev.id)]
    | .error e =>
      Action.sendMsg (.notApplied e) ::
        (if hasCor then [Action.cancelPlatform] else [Action.raisedExn "TypeError"])

/-- `DisciplineCog._apply_discipline`: `tp` is the `pytimeparse.timeparse`
oracle, `now` the current timestamp, `res` the backend's response to the
`_commit_user_discipline` call, `hasCor` whether a platform coroutine was
supplied (all command call sites pass one). -/
def applyDiscipline (tp : String → Option Int) (now : Int) (duration : Option String)
    (res : Except String DisciplineEvent) (hasCor : Bool) : List Action :=
  match duration with
  | none => afterParse res hasCor none false true
  | some d =>
    match tp d with
    | none => [Action.sendMsg (.invalidDuration d)]
    | some secs =>
      if secs = 0 then afterParse res hasCor (some now) true true
      else afterParse res hasCor (some (now + secs)) false false

/-- Scanning a trace from the start: no platform enforcement action occurs
before the first backend event-creation call. -/
def commitBeforePlatform : List Action → Bool
  | [] => true
  | Action.platformDiscipline :: _ => false
  | Action.commitEvent _ _ :: _ => true
  | _ :: rest => commitBeforePlatform rest

/-- The `User {u}#{d} [{id}] ` prefix shared by the three
`_is_user_disciplined` not-disciplined messages. -/
def userTag (username disc : String) (userId : Nat) : String :=
  "User " ++ username ++ "#" ++ disc ++ " [" ++ toString userId ++ "] "

/-- Reason reported when no discipline event of the type exists. -/
def reasonNever (u d : String) (i : Nat) (t : String) : String :=
  userTag u d i ++ "has not been disciplined with type " ++ t ++ "."

/-- Reason reported when the latest discipline event is pardoned. -/
def reasonPardoned (u d : String) (i : Nat) (t : String) : String :=
  userTag u d i ++ "has had their latest discipline of type " ++ t ++ " pardoned."

/-- Reason reported when the latest discipline event is terminated. -/
def reasonExpired (u d : String) (i : Nat) (t : String) : String :=
  userTag u d i ++ "had temporary discipline of type " ++ t ++ ", but it expired."

/-- `DisciplineCog._is_user_disciplined`: `backendRes` is the gateway's
`discipline_event_get_latest_discipline_of_type` result, where `.ok none`
models the empty-dict sentinel for a 404 (never disciplined). -/
def isUserDisciplined (u d : String) (i : Nat) (t : String)
    (backendRes : Except String (Option DisciplineEvent)) :
    Option DisciplineEvent × Option String :=
  match backendRes with
  | .error e => (none, some e)
  | .ok none => (none, some (reasonNever u d i t))
  | .ok (some ev) =>
    if ev.isPardoned then (none, some (reasonPardoned u d i t))
    else if ev.isTerminated then (none, some (reasonExpired u d i t))
    else (some ev, none)

/-- `DisciplineCog._pardon_discipline`, given the `_is_user_disciplined`
result, the gateway's `discipline_event_set_pardoned` error (if any) and
whether a platform reversal coroutine was supplied. -/
def pardonDiscipline (queryRes : Option DisciplineEvent × Option String)
    (setErr : Option String) (hasCor : Bool) : List Action :=
  match queryRes with
  | (none, reason) => [Action.sendMsg (.noRecord reason)]
  | (some ev, _) =>
    Action.setPardoned ev.id ::
      match setErr with
      | some e => [Action.sendMsg (.remainsInEffect e)]
      | none => (if hasCor then [Action.platformReversal] else []) ++ [Action.sendMsg .pardonedOk]

/-- The full pardon operation (unban / remove_role / unmute): query the latest
discipline of the type, then pardon it. -/
def pardonOp (u d : String) (i : Nat) (t : String)
    (backendRes : Except String (Option DisciplineEvent))
    (setErr : Option String) (hasCor : Bool) : List Action :=
  pardonDiscipline (isUserDisciplined u d i t backendRes) setErr hasCor

/-- Model of Python `int(s)` restricted to the digit strings the bot cares
about: `some n` exactly when `s` is a non-empty string of decimal digits
(otherwise Python raises `ValueError`, modelled as `none`). -/
def parseNat (s : String) : Option Nat :=
  if s.data = [] then none
  else s.data.foldl
    (fun acc c =>
      match acc with
      | some n => if c.isDigit then some (n * 10 + (c.toNat - 48)) else none
      | none => none)
    (some 0)

/-- A guild member: username, snowflake, and the snowflakes of the member's
current roles. -/
structure MemberV where
  mname : String
  mid : Nat
  mroles : List Nat
deriving DecidableEq, Repr

/-- A guild role: snowflake and name. -/
structure GRole where
  rid : Nat
  rname : String
deriving DecidableEq, Repr

/-- A guild: snowflake, membership index, role list. -/
structure GuildV where
  gid : Nat
  members : List MemberV
  roles : List GRole
deriving DecidableEq, Repr

/-- `Guild.get_member_named`: first member whose username equals the
identifier (returns `None` rather than raising when there is no match). -/
def getMemberNamed (g : GuildV) (ident : String) : Option MemberV :=
  g.members.find? (fun mem => mem.mname == ident)

/-- `Guild.get_member`: member lookup by snowflake. -/
def getMember (g : GuildV) (n : Nat) : Option MemberV :=
  g.members.find? (fun mem => mem.mid == n)

/-- `Guild.get_role`: role lookup by snowflake, as the role's id. -/
def getRoleById (g : GuildV) (rid : Nat) : Option Nat :=
  if (g.roles.find? (fun r => r.rid == rid)).isSome then some rid else none

/-- `DisciplineCog._resolve_user`: username match, then snowflake as guild
member, then snowflake as global user (`getUser` models `bot.get_user`), then
the backend latest-discipline-by-username fallback (`backendLatest` is the
event returned by `discipline_event_get_latest_by_username`, `fetchUser`
models `bot.fetch_user` with `none` for a `NotFound`). -/
def resolveUser (g : GuildV) (getUser fetchUser : Nat → Option MemberV)
    (ident : String) (databaseFallback : Bool)
    (backendLatest : Option DisciplineEvent) : Option MemberV × Option String :=
  let m0 := getMemberNamed g ident
  let m1 := match m0 with
    | some m => some m
    | none =>
      match parseNat ident with
      | some n =>
        match getMember g n with
        | some m => some m
        | none => getUser n
      | none => none
  match m1 with
  | some m => (some m, none)
  | none =>
    let failMsg := some ("User " ++ ident ++ " does not exist or is not currently a Member!")
    if databaseFallback then
      match backendLatest with
      | some ev =>
        match fetchUser ev.userSnowflake with
        | some u => (some u, none)
        | none => (none, failMsg)
      | none => (none, failMsg)
    else (none, failMsg)

/-- `DisciplineCog._resolve_member`: the username match is computed first, but
the snowflake branch is not guarded by a `None` check, so whenever the
identifier parses as an integer the `get_member`-by-snowflake result
overwrites the username match. -/
def resolveMember (g : GuildV) (ident : String) : Option MemberV × Option String :=
  let byName := getMemberNamed g ident
  let finalObj := match parseNat ident with
    | some n => getMember g n
    | none => byName
  match finalObj with
  | none => (none, some ("User " ++ ident ++ " is not currently a Member!"))
  | some m => (some m, none)

/-- `DisciplineCog._resolve_role`: case-insensitive exact name match (the
input is not lowered); on zero matches the snowflake fallback always fails
because `await target_guild.get_role(...)` raises `TypeError` on the
non-awaitable result, which the surrounding `except` clause catches; more
than one match yields a warning and the first match.  `strLower` models
`str.lower()` on the character list. -/
def strLower (s : String) : String := String.mk (s.data.map Char.toLower)

def resolveRole (g : GuildV) (roleName : String) : Option GRole × Option String :=
  match g.roles.filter (fun r => strLower r.rname == roleName) with
  | [] => (none, some ("No role matching name " ++ roleName ++ " exists!"))
  | [r] => (some r, none)
  | r :: _ :: _ => (some r, some ("Warning, multiple matches found for role " ++ roleName ++ "!"))

/-- `DisciplineCog.temp_add_role` (also the target of `add_role`, `mute` and
`tempmute`): member and role resolution, the already-has-role guard, then
`_apply_discipline`.  The role-resolution error and warning sends in
`_prepare_role_changes` are built without `await` in the source and so are
never delivered; they do not appear in the trace. -/
def tempAddRole (g : GuildV) (ident roleName : String) (duration : Option String)
    (tp : String → Option Int) (now : Int)
    (res : Except String DisciplineEvent) : List Action :=
  match (resolveMember g ident).1 with
  | none => [Action.sendMsg .unableToAddRole]
  | some mem =>
    match (resolveRole g roleName).1 with
    | none => []
    | some r =>
      if r.rid ∈ mem.mroles then [Action.sendMsg .alreadyHasRole]
      else applyDiscipline tp now duration res true

/-- `DisciplineCog.add_role`: indefinite `temp_add_role`. -/
def addRoleCommand (g : GuildV) (ident roleName : String)
    (tp : String → Option Int) (now : Int)
    (res : Except String DisciplineEvent) : List Action :=
  tempAddRole g ident roleName none tp now res

/-- `DisciplineCog.mute`: indefinite `temp_add_role` of the configured
`muted` role. -/
def muteCommand (g : GuildV) (ident : String) (tp : String → Option Int) (now : Int)
    (res : Except String DisciplineEvent) : List Action :=
  tempAddRole g ident "muted" none tp now res

/-- `DisciplineCog.tempmute`: `temp_add_role` of the `muted` role with a
duration. -/
def tempmuteCommand (g : GuildV) (ident : String) (duration : Option String)
    (tp : String → Option Int) (now : Int)
    (res : Except String DisciplineEvent) : List Action :=
  tempAddRole g ident "muted" duration tp now res

/-- `DisciplineCog.kick`: member resolution then `_apply_discipline` with the
fixed duration string `0s`. -/
def kickCommand (g : GuildV) (ident : String) (tp : String → Option Int) (now : Int)
    (res : Except String DisciplineEvent) : List Action :=
  match (resolveMember g ident).1 with
  | none => [Action.sendMsg .unableToKick]
  | some _ => applyDiscipline tp now (some "0s") res true

/-- An HTTP exchange as seen by the `aiohttp` session: either a
`ClientConnectionError` or a response with a status code and decoded body. -/
inductive HttpResult (α : Type) where
  | connError
  | resp (status : Nat) (body : α)
deriving DecidableEq, Repr

/-- What a gateway coroutine does for its caller: return the documented
`(value, error)` pair, or let an exception escape. -/
inductive GatewayOutcome (α : Type) where
  | pair (val : Option α) (err : Option String)
  | raised (exn : String)
deriving DecidableEq, Repr

/-- A decoded list-endpoint response body in the backend's paginated shape
(spec interface: a `next` link plus a `results` array).  `next = none` models
a body without the `next` key; `next = some none` models `"next": null`
(last page); `next = some (some u)` points at the next page. -/
structure PageBody where
  next : Option (Option String)
  results : List DisciplineEvent
deriving DecidableEq, Repr

/-- `BotBackendClient.discipline_event_get`: returns the body on a 200, turns
a connection failure into an error pair, but `raise ValueError` on any other
status escapes because the `except` clause catches only
`ClientConnectionError`. -/
def disciplineEventGet (r : HttpResult DisciplineEvent) : GatewayOutcome DisciplineEvent :=
  match r with
  | .connError => .pair none (some "Unable to contact database")
  | .resp s b => if s = 200 then .pair (some b) none else .raised "ValueError"

/-- Outcome of the paginated get-all loop; `fuelOut` marks exhausting the
iteration bound used to model the source's `while` loop. -/
inductive GetAllResult where
  | pair (val : Option (List DisciplineEvent)) (err : Option String)
  | raised (exn : String)
  | fuelOut
deriving DecidableEq, Repr

/-- The `while req_url is not None` loop of
`BotBackendClient.discipline_event_get_all_for_user`: on each 200 response,
if the body has a `next` key its `results` are accumulated and the loop
follows the `next` value; a body without the key ends the loop with that
page's results dropped; a non-200 status raises `ValueError` (uncaught). -/
def getAllLoop (fetch : String → HttpResult PageBody) :
    Nat → String → List DisciplineEvent → GetAllResult
  | 0, _, _ => .fuelOut
  | fuel + 1, url, acc =>
    match fetch url with
    | .connError => .pair none (some "Unable to contact database")
    | .resp s body =>
      if s = 200 then
        match body.next with
        | none => .pair (some acc) none
        | some none => .pair (some (acc ++ body.results)) none
        | some (some u) => getAllLoop fetch fuel u (acc ++ body.results)
      else .raised "ValueError"

/-- The initial URL of the get-all-events-for-user endpoint. -/
def getAllUrl : String := "discipline/discipline-event/get_discipline_events_for"

/-- `BotBackendClient.discipline_event_get_all_for_user`, with `fuel` bounding
the number of loop iterations. -/
def disciplineEventGetAllForUser (fetch : String → HttpResult PageBody)
    (fuel : Nat) : GetAllResult :=
  getAllLoop fetch fuel getAllUrl []

/-- The URL of the reaction-role embed list endpoint. -/
def embedListUrl : String := "reaction/tracked-reaction-embed/"

/-- `BotBackendClient.reaction_role_embed_list`: one GET, and the decoded body
of that single response is returned as-is (no pagination loop). -/
def reactionRoleEmbedList (fetch : String → HttpResult PageBody) : GatewayOutcome PageBody :=
  match fetch embedListUrl with
  | .connError => .pair none (some "Unable to contact database")
  | .resp s b =>
    if s = 200 then .pair (some b) none
    else .pair none (some ("Encountered an HTTP error getting list: " ++ toString s))

/-- `Chain fetch n url evs`: starting at `url`, the backend serves a chain of
`n` pages, each a 200 response whose `next` key is present, ending in a
`"next": null` page; `evs` is the concatenation of all pages' `results` in
order. -/
inductive Chain (fetch : String → HttpResult PageBody) :
    Nat → String → List DisciplineEvent → Prop where
  | lastPage (url : String) (evs : List DisciplineEvent)
      (h : fetch url = .resp 200 ⟨some none, evs⟩) : Chain fetch 1 url evs
  | consPage (url nextUrl : String) (evs rest : List DisciplineEvent) (n : Nat)
      (h : fetch url = .resp 200 ⟨some (some nextUrl), evs⟩)
      (hc : Chain fetch n nextUrl rest) : Chain fetch (n + 1) url (evs ++ rest)

/-- Association-list lookup, modelling Python dict indexing by snowflake. -/
def alookup {α : Type} : List (Nat × α) → Nat → Option α
  | [], _ => none
  | (k, v) :: rest, key => if k = key then some v else alookup rest key

/-- Association-list insert/overwrite, modelling `d[key] = v`. -/
def aset {α : Type} : List (Nat × α) → Nat → α → List (Nat × α)
  | [], key, v => [(key, v)]
  | (k, w) :: rest, key, v =>
    if k = key then (k, v) :: rest else (k, w) :: aset rest key v

/-- Association-list removal, modelling `d.pop(key)` after a presence check. -/
def aerase {α : Type} : List (Nat × α) → Nat → List (Nat × α)
  | [], _ => []
  | (k, w) :: rest, key => if k = key then rest else (k, w) :: aerase rest key

/-- emoji snowflake → role snowflake. -/
abbrev EmojiMap := List (Nat × Nat)

/-- message snowflake → emoji map. -/
abbrev MsgMap := List (Nat × EmojiMap)

/-- guild snowflake → message map: the in-memory
`_reaction_mapping_cache`. -/
abbrev RCache := List (Nat × MsgMap)

instance : DecidableEq MsgMap := inferInstance

instance : DecidableEq RCache := inferInstance

/-- Channel messages of the reaction-role mutation commands. -/
inductive RRMsg where
  | embedMissing
  | backendAddErr (e : String)
  | mappingAdded
  | noMapping
  | backendRemoveErr (e : String)
  | mappingRemoved
  | backendCreateErr (e : String)
  | created
deriving DecidableEq, Repr

/-- Result of one reaction-role mutation command: the cache afterwards, the
messages sent, whether the backend mutation endpoint was called, and whether
the handler escaped with a `KeyError`. -/
structure RRStep where
  cacheAfter : RCache
  msgs : List RRMsg
  backendCalled : Bool
  raisedKeyError : Bool
deriving DecidableEq, Repr

/-- `ReactionRolesCog.add` (the `react add` command): cache lookup of the
guild/message mapping dict, then the backend `add_mappings` call, and only on
its success the cache insert. -/
def reactAdd (cache : RCache) (g m e r : Nat) (backendErr : Option String) : RRStep :=
  match alookup cache g with
  | none => ⟨cache, [.embedMissing], false, false⟩
  | some msgMap =>
    match alookup msgMap m with
    | none => ⟨cache, [.embedMissing], false, false⟩
    | some emap =>
      match backendErr with
      | some err => ⟨cache, [.backendAddErr err], true, false⟩
      | none => ⟨aset cache g (aset msgMap m (aset emap e r)), [.mappingAdded], true, false⟩

/-- `ReactionRolesCog.remove` (the `react remove` command).  When the emoji
has no mapping the source sends a message but does not return, so the backend
call still happens and a successful backend removal then reaches
`mapping_dict.pop(emoji.id)`, which raises `KeyError`. -/
def reactRemove (cache : RCache) (g m e : Nat) (backendErr : Option String) : RRStep :=
  match alookup cache g with
  | none => ⟨cache, [.embedMissing], false, false⟩
  | some msgMap =>
    match alookup msgMap m with
    | none => ⟨cache, [.embedMissing], false, false⟩
    | some emap =>
      let msgs0 : List RRMsg := if (alookup emap e).isNone then [.noMapping] else []
      match backendErr with
      | some err => ⟨cache, msgs0 ++ [.backendRemoveErr err], true, false⟩
      | none =>
        match alookup emap e with
        | none => ⟨cache, msgs0, true, true⟩
        | some _ =>
          ⟨aset cache g (aset msgMap m (aerase emap e)), msgs0 ++ [.mappingRemoved], true, false⟩

/-- `ReactionRolesCog._create_on_backend`: backend create first, and only on
success the guild entry (created empty if absent) gains the new message's
mapping dict. -/
def createOnBackend (cache : RCache) (g m : Nat) (idMapping : EmojiMap)
    (backendRes : Except String Nat) : RCache × Option String :=
  match backendRes with
  | .error e => (cache, some e)
  | .ok _ => (aset cache g (aset ((alookup cache g).getD []) m idMapping), none)

/-- The `react create` command's interaction with the cache: surface the
`_create_on_backend` error or report success. -/
def createCommand (cache : RCache) (g m : Nat) (idMapping : EmojiMap)
    (backendRes : Except String Nat) : RCache × List RRMsg :=
  match createOnBackend cache g m idMapping backendRes with
  | (c, some e) => (c, [.backendCreateErr e])
  | (c, none) => (c, [.created])

/-- A raw reaction gateway event payload. -/
structure RawReactionEvent where
  eventType : String
  guildId : Option Nat
  userId : Nat
  messageId : Nat
  emojiId : Nat
  payloadMember : Option MemberV
deriving Repr

/-- Observable side effects of the raw-reaction listeners. -/
inductive Effect where
  | log (s : String)
  | roleAdd (memberId roleId : Nat)
  | roleRemove (memberId roleId : Nat)
  | raised (exn : String)
deriving DecidableEq, Repr

/-- `ReactionRolesCog._convert_reaction_event`: resolve guild and member from
the payload; on removal events a null member is re-resolved by user id through
the guild (where `get_member` returns `None` silently for an unknown id, so
the result member may still be `none` with a resolved guild). -/
def convertReactionEvent (getGuild : Nat → Option GuildV) (p : RawReactionEvent) :
    Option GuildV × Option MemberV × List Effect :=
  match p.guildId with
  | none => (none, none, [.log "non guild react"])
  | some gid =>
    match getGuild gid with
    | none => (none, none, [.log "got none guild"])
    | some guild =>
      match p.payloadMember with
      | some m => (some guild, some m, [])
      | none =>
        if p.eventType == "REACTION_REMOVE" then (some guild, getMember guild p.userId, [])
        else (none, none, [.log "got non-guild message 2"])

/-- `ReactionRolesCog._populate_reaction_embed_guild_cache`: fetch the guild's
embed list from the backend (`backendList` the decoded entries); on error the
cache is untouched, on success the guild entry (created if absent) receives
every fetched message's mapping dict. -/
def populateGuildCache (cache : RCache) (gid : Nat)
    (backendList : Except String MsgMap) : RCache × Option String :=
  match backendList with
  | .error e => (cache, some ("Unable to retrieve reaction role embed list: " ++ e))
  | .ok entries =>
    (aset cache gid (entries.foldl (fun mm ent => aset mm ent.1 ent.2) ((alookup cache gid).getD [])), none)

/-- Result of `_retrieve_reaction_emoji_role`: the returned
`(role, error)` pair, or an escaped exception. -/
inductive RetrieveResult where
  | found (role : Option Nat)
  | failedLookup (err : String)
  | raisedExn (exn : String)
deriving DecidableEq, Repr

/-- `ReactionRolesCog._retrieve_reaction_emoji_role`: lazily populate the
guild's cache entry (the populate error is discarded, so a failed population
leaves the guild key absent and the subsequent indexing raises `KeyError`); a
`None` guild raises `AttributeError` at the first attribute access.  On a hit
the mapped role id is resolved through `guild.get_role`, whose `None` result
is returned with no error. -/
def retrieveReactionEmojiRole (cache : RCache) (backendList : Except String MsgMap)
    (gOpt : Option GuildV) (msgId emojiId : Nat) : RCache × RetrieveResult :=
  match gOpt with
  | none => (cache, .raisedExn "AttributeError")
  | some g =>
    let cache1 := if (alookup cache g.gid).isSome then cache
      else (populateGuildCache cache g.gid backendList).1
    match alookup cache1 g.gid with
    | none => (cache1, .raisedExn "KeyError")
    | some msgMap =>
      match alookup msgMap msgId with
      | none => (cache1, .failedLookup "is not a reaction role message")
      | some emap =>
        match alookup emap emojiId with
        | none => (cache1, .failedLookup "is not mapped to a role")
        | some roleId => (cache1, .found (getRoleById g roleId))

/-- `ReactionRolesCog._handle_reaction_add`: role retrieval then
`member.add_roles`; returns the handler's error string (printed by the
listener), with a `None` member raising `AttributeError` at the role call. -/
def handleReactionAdd (cache : RCache) (backendList : Except String MsgMap)
    (gOpt : Option GuildV) (mOpt : Option MemberV) (msgId emojiId : Nat) :
    RCache × List Effect × Option String :=
  match retrieveReactionEmojiRole cache backendList gOpt msgId emojiId with
  | (c, .raisedExn e) => (c, [Effect.raised e], none)
  | (c, .failedLookup e) => (c, [], some ("Could not resolve role for given emoji: " ++ e))
  | (c, .found none) => (c, [], some "Could not resolve role for given emoji: None")
  | (c, .found (some roleId)) =>
    match mOpt with
    | none => (c, [Effect.raised "AttributeError"], none)
    | some mem => (c, [Effect.roleAdd mem.mid roleId], none)

/-- `ReactionRolesCog._handle_reaction_remove`: like the add handler but
revoking the mapped role. -/
def handleReactionRemove (cache : RCache) (backendList : Except String MsgMap)
    (gOpt : Option GuildV) (mOpt : Option MemberV) (msgId emojiId : Nat) :
    RCache × List Effect × Option String :=
  match retrieveReactionEmojiRole cache backendList gOpt msgId emojiId with
  | (c, .raisedExn e) => (c, [Effect.raised e], none)
  | (c, .failedLookup e) => (c, [], some ("Could not resolve role for given emoji: " ++ e))
  | (c, .found none) => (c, [], some "Could not resolve role for given emoji: None")
  | (c, .found (some roleId)) =>
    match mOpt with
    | none => (c, [Effect.raised "AttributeError"], none)
    | some mem => (c, [Effect.roleRemove mem.mid roleId], none)

/-- `ReactionRolesCog.on_raw_reaction_add`: drops the event when the resolved
member is `None` or is the bot itself, otherwise runs the add handler and
logs its error. -/
def onRawReactionAdd (cache : RCache) (getGuild : Nat → Option GuildV) (botId : Nat)
    (backendList : Except String MsgMap) (p : RawReactionEvent) : RCache × List Effect :=
  if p.eventType ≠ "REACTION_ADD" then (cache, [.log "got non-add event"])
  else
    match convertReactionEvent getGuild p with
    | (gOpt, mOpt, logs) =>
      match mOpt with
      | none => (cache, logs)
      | some mem =>
        if mem.mid = botId then (cache, logs)
        else
          match handleReactionAdd cache backendList gOpt (some mem) p.messageId p.emojiId with
          | (c, effs, some e) => (c, logs ++ effs ++ [.log e])
          | (c, effs, none) => (c, logs ++ effs)

/-- `ReactionRolesCog.on_raw_reaction_remove`: runs the remove handler on
whatever `_convert_reaction_event` produced, with no member-`None` and no
bot-actor guard (`botId` is unused, mirroring the source). -/
def onRawReactionRemove (cache : RCache) (getGuild : Nat → Option GuildV) (botId : Nat)
    (backendList : Except String MsgMap) (p : RawReactionEvent) : RCache × List Effect :=
  if p.eventType ≠ "REACTION_REMOVE" then (cache, [.log "got non-remove event"])
  else
    match convertReactionEvent getGuild p with
    | (gOpt, mOpt, logs) =>
      match handleReactionRemove cache backendList gOpt mOpt p.messageId p.emojiId with
      | (c, effs, some e) => (c, logs ++ effs ++ [.log e])
      | (c, effs, none) => (c, logs ++ effs)

/-- Concrete discipline event used by witnesses. -/
def evN (k : Nat) : DisciplineEvent := ⟨k, false, false, k⟩

/-- Concrete timeparse oracle used by witnesses. -/
def tpStd : String → Option Int := fun s =>
  if s == "0s" then some 0 else if s == "1h" then some 3600 else none

lemma reasonNever_length (u d : String) (i : Nat) (t : String) :
    (reasonNever u d i t).length = (userTag u d i).length + t.length + 36 := by
  have h1 : ("has not been disciplined with type ").length = 35 := by decide
  have h2 : (".").length = 1 := by decide
  simp only [reasonNever, String.length_append, h1, h2]
  omega

lemma reasonPardoned_length (u d : String) (i : Nat) (t : String) :
    (reasonPardoned u d i t).length = (userTag u d i).length + t.length + 50 := by
  have h1 : ("has had their latest discipline of type ").length = 40 := by decide
  have h2 : (" pardoned.").length = 10 := by decide
  simp only [reasonPardoned, String.length_append, h1, h2]
  omega

lemma reasonExpired_length (u d : String) (i : Nat) (t : String) :
    (reasonExpired u d i t).length = (userTag u d i).length + t.length + 50 := by
  have h1 : ("had temporary discipline of type ").length = 33 := by decide
  have h2 : (", but it expired.").length = 17 := by decide
  simp only [reasonExpired, String.length_append, h1, h2]
  omega

lemma reasonNever_ne_pardoned (u d : String) (i : Nat) (t : String) :
    reasonNever u d i t ≠ reasonPardoned u d i t := by
  intro h
  have hl := congrArg String.length h
  rw [reasonNever_length, reasonPardoned_length] at hl
  omega

lemma reasonNever_ne_expired (u d : String) (i : Nat) (t : String) :
    reasonNever u d i t ≠ reasonExpired u d i t := by
  intro h
  have hl := congrArg String.length h
  rw [reasonNever_length, reasonExpired_length] at hl
  omega

lemma reasonPardoned_ne_expired (u d : String) (i : Nat) (t : String) :
    reasonPardoned u d i t ≠ reasonExpired u d i t := by
  intro h
  have hd := congrArg String.data h
  simp only [reasonPardoned, reasonExpired, String.data_append, List.append_assoc] at hd
  have hx := List.append_cancel_left hd
  have ht := congrArg (List.take 3) hx
  rw [List.take_append_of_le_length (by decide),
    List.take_append_of_le_length (by decide)] at ht
  exact absurd ht (by decide)

/-- Claim C1: in `_apply_discipline` the backend event creation always
precedes any platform enforcement action, and when the creation returns an
error the platform coroutine is never awaited, its scheduled task is
cancelled, and the moderator is told the discipline was not applied.  All
four discipline applications (ban, tempban, temp_add_role, kick) funnel into
this helper with a platform coroutine supplied. -/
theorem c1_backend_write_gates_platform (tp : String → Option Int) (now : Int)
    (duration : Option String) (res : Except String DisciplineEvent) :
    commitBeforePlatform (applyDiscipline tp now duration res true) = true ∧
    ∀ e, res = Except.error e →
      Action.platformDiscipline ∉ applyDiscipline tp now duration res true ∧
      ∀ et it, Action.commitEvent et it ∈ applyDiscipline tp now duration res true →
        Action.cancelPlatform ∈ applyDiscipline tp now duration res true ∧
        Action.sendMsg (DMsg.notApplied e) ∈ applyDiscipline tp now duration res true := by
  constructor
  · cases duration with
    | none => cases res <;> simp [applyDiscipline, afterParse, commitBeforePlatform]
    | some d =>
      cases htp : tp d with
      | none => simp [applyDiscipline, htp, commitBeforePlatform]
      | some secs =>
        by_cases h0 : secs = 0 <;> cases res <;>
          simp [applyDiscipline, htp, h0, afterParse, commitBeforePlatform]
  · intro e he
    subst he
    cases duration with
    | none => simp [applyDiscipline, afterParse]
    | some d =>
      cases htp : tp d with
      | none => simp [applyDiscipline, htp]
      | some secs =>
        by_cases h0 : secs = 0 <;> simp [applyDiscipline, htp, h0, afterParse]

/-- Witness for C1 at a concrete failing backend. -/
theorem c1_backend_write_gates_platform_witness :
    Action.platformDiscipline ∉ applyDiscipline tpStd 0 (some "1h") (Except.error "down") true ∧
    Action.cancelPlatform ∈ applyDiscipline tpStd 0 (some "1h") (Except.error "down") true := by
  have h := (c1_backend_write_gates_platform tpStd 0 (some "1h") (Except.error "down")).2 "down" rfl
  exact ⟨h.1, (h.2 (some (0 + 3600)) false (by decide)).1⟩

/-- Claim C3: `_pardon_discipline` performs no mutation and only reports the
reason when the query says the user is not actively disciplined; otherwise it
sets the pardoned flag first and performs the platform reversal only when
that gateway call succeeds, telling the moderator the discipline remains in
effect on gateway failure.  All three pardon commands (unban, remove_role,
unmute) funnel into this helper with a reversal coroutine supplied. -/
theorem c3_pardon_gated_on_backend (u d : String) (i : Nat) (t : String)
    (b : Except String (Option DisciplineEvent)) (setErr : Option String) :
    ((isUserDisciplined u d i t b).1 = none →
      pardonOp u d i t b setErr true =
        [Action.sendMsg (DMsg.noRecord (isUserDisciplined u d i t b).2)]) ∧
    (∀ ev e, (isUserDisciplined u d i t b).1 = some ev → setErr = some e →
      pardonOp u d i t b setErr true =
        [Action.setPardoned ev.id, Action.sendMsg (DMsg.remainsInEffect e)] ∧
      Action.platformReversal ∉ pardonOp u d i t b setErr true) ∧
    (∀ ev, (isUserDisciplined u d i t b).1 = some ev → setErr = none →
      pardonOp u d i t b setErr true =
        [Action.setPardoned ev.id, Action.platformReversal, Action.sendMsg DMsg.pardonedOk]) := by
  rcases hq : isUserDisciplined u d i t b with ⟨fst, snd⟩
  cases fst <;> cases setErr <;> simp [pardonOp, pardonDiscipline, hq]

/-- Witness for C3 at a concrete active event and failing pardon call. -/
theorem c3_pardon_gated_on_backend_witness :
    pardonOp "alice" "0001" 5 "ban" (Except.ok (some (evN 3))) (some "down") true =
      [Action.setPardoned 3, Action.sendMsg (DMsg.remainsInEffect "down")] := by
  exact (((c3_pardon_gated_on_backend "alice" "0001" 5 "ban" (Except.ok (some (evN 3)))
    (some "down")).2.1 (evN 3) "down" (by decide) rfl)).1

/-- Claim C4: `_is_user_disciplined` returns the event exactly when the
latest event of the type exists and is neither pardoned nor terminated, and
otherwise returns one of three pairwise-distinct human-readable reasons for
the no-event, pardoned, and terminated cases. -/
theorem c4_query_three_reasons (u d : String) (i : Nat) (t : String)
    (b : Except String (Option DisciplineEvent)) :
    (∀ ev, (isUserDisciplined u d i t b).1 = some ev ↔
      b = Except.ok (some ev) ∧ ev.isPardoned = false ∧ ev.isTerminated = false) ∧
    (b = Except.ok none →
      isUserDisciplined u d i t b = (none, some (reasonNever u d i t))) ∧
    (∀ ev, b = Except.ok (some ev) → ev.isPardoned = true →
      isUserDisciplined u d i t b = (none, some (reasonPardoned u d i t))) ∧
    (∀ ev, b = Except.ok (some ev) → ev.isPardoned = false → ev.isTerminated = true →
      isUserDisciplined u d i t b = (none, some (reasonExpired u d i t))) ∧
    reasonNever u d i t ≠ reasonPardoned u d i t ∧
    reasonNever u d i t ≠ reasonExpired u d i t ∧
    reasonPardoned u d i t ≠ reasonExpired u d i t := by
  refine ⟨?_, ?_, ?_, ?_, reasonNever_ne_pardoned u d i t,
    reasonNever_ne_expired u d i t, reasonPardoned_ne_expired u d i t⟩
  · intro ev
    match b with
    | .error e => simp [isUserDisciplined]
    | .ok none => simp [isUserDisciplined]
    | .ok (some ev') =>
      by_cases hp : ev'.isPardoned <;> by_cases ht : ev'.isTerminated <;>
        simp [isUserDisciplined, hp, ht] <;> aesop
  · intro hb; subst hb; simp [isUserDisciplined]
  · intro ev hb hp; subst hb; simp [isUserDisciplined, hp]
  · intro ev hb hp ht; subst hb; simp [isUserDisciplined, hp, ht]

/-- Witness for C4 at concrete backend responses. -/
theorem c4_query_three_reasons_witness :
    isUserDisciplined "alice" "0001" 5 "ban" (Except.ok none) =
      (none, some (reasonNever "alice" "0001" 5 "ban")) ∧
    (isUserDisciplined "alice" "0001" 5 "ban" (Except.ok (some (evN 3)))).1 = some (evN 3) := by
  refine ⟨(c4_query_three_reasons "alice" "0001" 5 "ban" (Except.ok none)).2.1 rfl, ?_⟩
  exact ((c4_query_three_reasons "alice" "0001" 5 "ban"
    (Except.ok (some (evN 3)))).1 (evN 3)).2 ⟨rfl, rfl, rfl⟩

/-- Claim C6: `_apply_discipline` with no duration commits an indefinite
event (no end time, not terminated); a duration parsing to zero seconds
commits an event pre-marked terminated with end time `now` (the path `kick`
takes via the fixed string `0s`); an unparseable duration only reports the
invalid-duration message, committing nothing and performing no platform
action. -/
theorem c6_duration_boundaries (tp : String → Option Int) (now : Int)
    (res : Except String DisciplineEvent) (d : String) (g : GuildV) (ident : String)
    (mem : MemberV) :
    (applyDiscipline tp now none res true).head? =
      some (Action.commitEvent none false) ∧
    (tp d = some 0 → (applyDiscipline tp now (some d) res true).head? =
      some (Action.commitEvent (some now) true)) ∧
    (tp d = none → applyDiscipline tp now (some d) res true =
      [Action.sendMsg (DMsg.invalidDuration d)]) ∧
    (tp "0s" = some 0 → (resolveMember g ident).1 = some mem →
      (kickCommand g ident tp now res).head? =
        some (Action.commitEvent (some now) true)) := by
  refine ⟨?_, ?_, ?_, ?_⟩
  · cases res <;> simp [applyDiscipline, afterParse]
  · intro htp; cases res <;> simp [applyDiscipline, htp, afterParse]
  · intro htp; simp [applyDiscipline, htp]
  · intro htp hm
    cases res <;> simp [kickCommand, hm, applyDiscipline, htp, afterParse]

/-- Witness for C6 with a concrete oracle covering all three boundary
cases and the kick path. -/
theorem c6_duration_boundaries_witness :
    (applyDiscipline tpStd 7 none (Except.ok (evN 1)) true).head? =
      some (Action.commitEvent none false) ∧
    (applyDiscipline tpStd 7 (some "0s") (Except.ok (evN 1)) true).head? =
      some (Action.commitEvent (some 7) true) ∧
    applyDiscipline tpStd 7 (some "bogus") (Except.ok (evN 1)) true =
      [Action.sendMsg (DMsg.invalidDuration "bogus")] := by
  have h := c6_duration_boundaries tpStd 7 (Except.ok (evN 1)) "0s" ⟨2, [], []⟩ "x" ⟨"x", 0, []⟩
  have h2 := c6_duration_boundaries tpStd 7 (Except.ok (evN 1)) "bogus" ⟨2, [], []⟩ "x" ⟨"x", 0, []⟩
  exact ⟨h.1, h.2.1 (by decide), h2.2.2.1 (by decide)⟩

/-- Claim C10: every role-adding discipline command (add_role,
temp_add_role, mute, tempmute) stops with the already-has-role message when
the resolved member already has the resolved role: no backend event is
committed and no platform role change happens. -/
theorem c10_already_has_role (g : GuildV) (ident roleName : String)
    (dur : Option String) (tp : String → Option Int) (now : Int)
    (res : Except String DisciplineEvent) (mem : MemberV) (r : GRole) :
    (resolveMember g ident).1 = some mem →
    ((resolveRole g roleName).1 = some r → r.rid ∈ mem.mroles →
      tempAddRole g ident roleName dur tp now res = [Action.sendMsg DMsg.alreadyHasRole] ∧
      addRoleCommand g ident roleName tp now res = [Action.sendMsg DMsg.alreadyHasRole]) ∧
    ((resolveRole g "muted").1 = some r → r.rid ∈ mem.mroles →
      muteCommand g ident tp now res = [Action.sendMsg DMsg.alreadyHasRole] ∧
      tempmuteCommand g ident dur tp now res = [Action.sendMsg DMsg.alreadyHasRole]) := by
  intro hm
  constructor
  · intro hr hin
    constructor <;>
      simp [tempAddRole, addRoleCommand, hm, hr, hin]
  · intro hr hin
    constructor <;>
      simp [muteCommand, tempmuteCommand, tempAddRole, hm, hr, hin]

/-- Witness for C10 at a concrete guild where the member already has the
`muted` role. -/
theorem c10_already_has_role_witness :
    tempAddRole ⟨1, [⟨"alice", 5, [30]⟩], [⟨30, "muted"⟩]⟩ "alice" "muted" none tpStd 0
      (Except.ok (evN 1)) = [Action.sendMsg DMsg.alreadyHasRole] := by
  exact ((c10_already_has_role ⟨1, [⟨"alice", 5, [30]⟩], [⟨30, "muted"⟩]⟩ "alice" "muted"
    none tpStd 0 (Except.ok (evN 1)) ⟨"alice", 5, [30]⟩ ⟨30, "muted"⟩ (by decide)).1
    (by decide) (by decide)).1

/-- Claim C2: every reaction-role mutation (create embed, add mapping,
remove mapping) calls the backend first and mutates the cache only on backend
success; on a backend error the cache is exactly unchanged and the error is
surfaced to the invoking moderator. -/
theorem c2_cache_never_ahead (cache : RCache) (g m e r : Nat) (err : Option String)
    (idMap : EmojiMap) (res : Except String Nat) :
    (∀ s, err = some s →
      (reactAdd cache g m e r err).cacheAfter = cache ∧
      ((reactAdd cache g m e r err).backendCalled = true →
        RRMsg.backendAddErr s ∈ (reactAdd cache g m e r err).msgs)) ∧
    ((reactAdd cache g m e r err).cacheAfter ≠ cache →
      (reactAdd cache g m e r err).backendCalled = true ∧ err = none) ∧
    (∀ s, err = some s →
      (reactRemove cache g m e err).cacheAfter = cache ∧
      ((reactRemove cache g m e err).backendCalled = true →
        RRMsg.backendRemoveErr s ∈ (reactRemove cache g m e err).msgs)) ∧
    ((reactRemove cache g m e err).cacheAfter ≠ cache →
      (reactRemove cache g m e err).backendCalled = true ∧ err = none) ∧
    (∀ s, res = Except.error s →
      createCommand cache g m idMap res = (cache, [RRMsg.backendCreateErr s])) ∧
    ((createCommand cache g m idMap res).1 ≠ cache → ∃ k, res = Except.ok k) := by
  refine ⟨?_, ?_, ?_, ?_, ?_, ?_⟩
  · intro s hs
    subst hs
    rcases hg : alookup cache g with _ | msgMap
    · simp [reactAdd, hg]
    · rcases hm : alookup msgMap m with _ | emap <;> simp [reactAdd, hg, hm]
  · rcases hg : alookup cache g with _ | msgMap
    · simp [reactAdd, hg]
    · rcases hm : alookup msgMap m with _ | emap
      · simp [reactAdd, hg, hm]
      · cases err <;> simp [reactAdd, hg, hm]
  · intro s hs
    subst hs
    rcases hg : alookup cache g with _ | msgMap
    · simp [reactRemove, hg]
    · rcases hm : alookup msgMap m with _ | emap
      · simp [reactRemove, hg, hm]
      · rcases he : alookup emap e with _ | rid <;> simp [reactRemove, hg, hm, he]
  · rcases hg : alookup cache g with _ | msgMap
    · simp [reactRemove, hg]
    · rcases hm : alookup msgMap m with _ | emap
      · simp [reactRemove, hg, hm]
      · cases err with
        | none => rcases he : alookup emap e with _ | rid <;> simp [reactRemove, hg, hm, he]
        | some s => simp [reactRemove, hg, hm]
  · intro s hs
    subst hs
    simp [createCommand, createOnBackend]
  · intro h
    cases res with
    | ok k => exact ⟨k, rfl⟩
    | error s =>
      exact absurd (by simp [createCommand, createOnBackend]) h

/-- Witness for C2 at a concrete cache and failing backend. -/
theorem c2_cache_never_ahead_witness :
    (reactAdd [(1, [(10, [(20, 30)])])] 1 10 21 31 (some "down")).cacheAfter =
      [(1, [(10, [(20, 30)])])] ∧
    RRMsg.backendAddErr "down" ∈ (reactAdd [(1, [(10, [(20, 30)])])] 1 10 21 31 (some "down")).msgs := by
  have h := (c2_cache_never_ahead [(1, [(10, [(20, 30)])])] 1 10 21 31 (some "down") []
    (Except.ok 0)).1 "down" rfl
  exact ⟨h.1, h.2 (by decide)⟩

lemma getAllLoop_chain {fetch : String → HttpResult PageBody} {n : Nat} {url : String}
    {evs : List DisciplineEvent} (hc : Chain fetch n url evs) :
    ∀ fuel acc, n ≤ fuel →
      getAllLoop fetch fuel url acc = GetAllResult.pair (some (acc ++ evs)) none := by
  induction hc with
  | lastPage url evs h =>
    intro fuel acc hf
    cases fuel with
    | zero => omega
    | succ f => simp [getAllLoop, h]
  | consPage url nextUrl evs rest k h hc ih =>
    intro fuel acc hf
    cases fuel with
    | zero => omega
    | succ f =>
      simp [getAllLoop, h, ih f (acc ++ evs) (by omega)]

/-- Claim C5 (amended): the get-all-events-for-user gateway query follows the
backend's `next` pointer until exhausted and returns the concatenation of
all pages in backend-provided order, while the reaction-role embed list query
issues a single request (its outcome depends only on the first response) and
returns that response's decoded body without following any pointer. -/
theorem c5_pagination (fetch : String → HttpResult PageBody) :
    (∀ (n fuel : Nat) (evs : List DisciplineEvent),
      Chain fetch n getAllUrl evs → n ≤ fuel →
      disciplineEventGetAllForUser fetch fuel = GetAllResult.pair (some evs) none) ∧
    (∀ g : String → HttpResult PageBody, fetch embedListUrl = g embedListUrl →
      reactionRoleEmbedList fetch = reactionRoleEmbedList g) := by
  constructor
  · intro n fuel evs hc hf
    have h := getAllLoop_chain hc fuel [] hf
    simpa [disciplineEventGetAllForUser] using h
  · intro g h
    simp [reactionRoleEmbedList, h]

/-- The second page URL of the two-page counterexample backend. -/
def pageTwoUrl : String := "nextpage"

/-- A backend serving the embed-list endpoint as a two-page chain. -/
def fetchTwoPages : String → HttpResult PageBody := fun url =>
  if url == embedListUrl then HttpResult.resp 200 ⟨some (some pageTwoUrl), [evN 1, evN 2]⟩
  else if url == pageTwoUrl then HttpResult.resp 200 ⟨some none, [evN 3, evN 4]⟩
  else HttpResult.connError

/-- Counterexample to C5 as stated: the reaction-role embed list query, a
list-returning gateway query, returns the raw first page of a two-page chain
(whose full concatenation has four events) instead of following the `next`
pointer and concatenating. -/
theorem c5_pagination_counterexample :
    Chain fetchTwoPages 2 embedListUrl [evN 1, evN 2, evN 3, evN 4] ∧
    reactionRoleEmbedList fetchTwoPages =
      GatewayOutcome.pair (some ⟨some (some pageTwoUrl), [evN 1, evN 2]⟩) none := by
  constructor
  · exact Chain.consPage embedListUrl pageTwoUrl [evN 1, evN 2] [evN 3, evN 4] 1
      (by decide) (Chain.lastPage pageTwoUrl [evN 3, evN 4] (by decide))
  · decide

/-- A backend serving the get-all endpoint as a three-page chain of two
events each. -/
def fetchThreePages : String → HttpResult PageBody := fun url =>
  if url == getAllUrl then HttpResult.resp 200 ⟨some (some "p2"), [evN 1, evN 2]⟩
  else if url == "p2" then HttpResult.resp 200 ⟨some (some "p3"), [evN 3, evN 4]⟩
  else if url == "p3" then HttpResult.resp 200 ⟨some none, [evN 5, evN 6]⟩
  else HttpResult.connError

/-- Witness for C5: three pages of two events each yield all six events in
backend order. -/
theorem c5_pagination_witness :
    disciplineEventGetAllForUser fetchThreePages 3 =
      GetAllResult.pair (some [evN 1, evN 2, evN 3, evN 4, evN 5, evN 6]) none := by
  have h3 : Chain fetchThreePages 1 "p3" [evN 5, evN 6] :=
    Chain.lastPage "p3" [evN 5, evN 6] (by decide)
  have h2 : Chain fetchThreePages 2 "p2" ([evN 3, evN 4] ++ [evN 5, evN 6]) :=
    Chain.consPage "p2" "p3" [evN 3, evN 4] [evN 5, evN 6] 1 (by decide) h3
  have h1 : Chain fetchThreePages 3 getAllUrl
      ([evN 1, evN 2] ++ ([evN 3, evN 4] ++ [evN 5, evN 6])) :=
    Chain.consPage getAllUrl "p2" [evN 1, evN 2] ([evN 3, evN 4] ++ [evN 5, evN 6]) 2
      (by decide) h2
  exact (c5_pagination fetchThreePages).1 3 3 _ h1 (by omega)

/-- The guild of the C7 counterexample: one member whose username is the
digit string `42` and whose snowflake is 7; no member has snowflake 42. -/
def g7 : GuildV := ⟨2, [⟨"42", 7, []⟩], []⟩

/-- The member of `g7` named `42`. -/
def m42 : MemberV := ⟨"42", 7, []⟩

/-- Counterexample to C7 as stated: in the member variant the identifier
`42` matches a member's username yet resolution fails, because the
numeric-id lookup overwrites the username match; the user variant resolves
the same identifier to the username match. -/
theorem c7_username_precedence_counterexample :
    getMemberNamed g7 "42" = some m42 ∧
    parseNat "42" = some 42 ∧
    (resolveMember g7 "42").1 = none ∧
    (resolveUser g7 (fun _ => none) (fun _ => none) "42" false none).1 = some m42 := by
  decide

/-- Claim C7 (amended): in the user variant an exact username match takes
precedence over the numeric interpretation, the numeric guild-member and
global-user lookups are tried only after it fails, and the backend fallback
is never consulted when not allowed; in the member variant the username
match is kept only when the identifier does not parse as a number — when it
parses, the guild-member-by-id lookup result replaces any username match. -/
theorem c7_username_precedence_amended (g : GuildV) (gu fu : Nat → Option MemberV)
    (ident : String) (fb : Bool) (bl : Option DisciplineEvent) (m : MemberV) (n : Nat) :
    (getMemberNamed g ident = some m → resolveUser g gu fu ident fb bl = (some m, none)) ∧
    (getMemberNamed g ident = none → parseNat ident = some n → getMember g n = some m →
      resolveUser g gu fu ident fb bl = (some m, none)) ∧
    (getMemberNamed g ident = none → parseNat ident = some n → getMember g n = none →
      gu n = some m → resolveUser g gu fu ident fb bl = (some m, none)) ∧
    (∀ bl', resolveUser g gu fu ident false bl = resolveUser g gu fu ident false bl') ∧
    (parseNat ident = none → (resolveMember g ident).1 = getMemberNamed g ident) ∧
    (parseNat ident = some n → (resolveMember g ident).1 = getMember g n) := by
  refine ⟨?_, ?_, ?_, ?_, ?_, ?_⟩
  · intro h; simp [resolveUser, h]
  · intro h1 h2 h3; simp [resolveUser, h1, h2, h3]
  · intro h1 h2 h3 h4; simp [resolveUser, h1, h2, h3, h4]
  · intro bl'; rfl
  · intro h; cases hb : getMemberNamed g ident <;> simp [resolveMember, h, hb]
  · intro h; cases hg2 : getMember g n <;> simp [resolveMember, h, hg2]

/-- Witness for C7: the username match wins in the user variant on `g7`. -/
theorem c7_username_precedence_amended_witness :
    resolveUser g7 (fun _ => none) (fun _ => none) "42" true none = (some m42, none) := by
  exact (c7_username_precedence_amended g7 (fun _ => none) (fun _ => none) "42" true none
    m42 0).1 (by decide)

/-- A backend answering every URL with HTTP status 500. -/
def fetch500 : String → HttpResult PageBody := fun _ => HttpResult.resp 500 ⟨some none, []⟩

/-- Claim C8, failing input: on an unexpected HTTP status both cited gateway
operations raise `ValueError` past the gateway instead of returning the
documented `(None, error)` pair; only the connection-failure case returns the
pair. -/
theorem c8_unexpected_status_raises :
    disciplineEventGet (HttpResult.resp 500 (evN 0)) = GatewayOutcome.raised "ValueError" ∧
    disciplineEventGetAllForUser fetch500 5 = GetAllResult.raised "ValueError" ∧
    disciplineEventGet HttpResult.connError =
      GatewayOutcome.pair none (some "Unable to contact database") := by
  decide

/-- The bot's own member object in the C9 guild. -/
def botMem : MemberV := ⟨"linkusbot", 99, []⟩

/-- The guild of the C9 failing inputs: the bot and one human member, one
role, one tracked reaction-role message mapping emoji 20 to role 30. -/
def guild9 : GuildV := ⟨1, [botMem, ⟨"alice", 5, []⟩], [⟨30, "color"⟩]⟩

/-- The reaction cache of the C9 failing inputs. -/
def cache9 : RCache := [(1, [(10, [(20, 30)])])]

/-- Guild lookup for the C9 failing inputs. -/
def getGuild9 : Nat → Option GuildV := fun nn => if nn = 1 then some guild9 else none

/-- A raw removal event whose reacting user is the bot itself. -/
def removeByBot : RawReactionEvent := ⟨"REACTION_REMOVE", some 1, 99, 10, 20, none⟩

/-- A raw removal event outside any guild (a DM), on which guild resolution
fails. -/
def removeNoGuild : RawReactionEvent := ⟨"REACTION_REMOVE", none, 5, 10, 20, none⟩

/-- A raw add event whose reacting member is the bot itself. -/
def addByBot : RawReactionEvent := ⟨"REACTION_ADD", some 1, 99, 10, 20, some botMem⟩

/-- Claim C9, failing input: the remove listener lacks the member-`None` and
bot-actor guards the add listener has — a removal by the bot itself revokes
the mapped role from the bot (a role mutation), and a removal whose
resolution fails raises `AttributeError` instead of being dropped silently;
the add listener drops the same bot actor with no effect. -/
theorem c9_remove_guards_missing :
    onRawReactionRemove cache9 getGuild9 99 (Except.ok []) removeByBot =
      (cache9, [Effect.roleRemove 99 30]) ∧
    onRawReactionRemove cache9 getGuild9 99 (Except.ok []) removeNoGuild =
      (cache9, [Effect.log "non guild react", Effect.raised "AttributeError"]) ∧
    onRawReactionAdd cache9 getGuild9 99 (Except.ok []) addByBot = (cache9, []) := by
  decide

end Linkus
